import Mathlib

/-
Verification of the smt-toggle application core.

Shallow embedding of the Rust sources:
  * src/smt.rs  — SmtStatus, its parser, and the privileged-write protocol
    set_smt_enabled (direct write with pkexec escalation fallback);
  * src/app.rs  — the single-threaded application state machine App and its
    update function over the Message event vocabulary.

File I/O, process spawning and the async executor are modelled by explicit
environment records describing the outcome of each external interaction, and
by an AppTask datatype recording which follow-up task an update dispatches.
-/

/-! ## Status model (src/smt.rs) -/

/-- The five-variant status enumeration from src/smt.rs. -/
inductive SmtStatus where
  | On
  | Off
  | ForceOff
  | NotSupported
  | Unknown
deriving DecidableEq, Repr

/-- Rust: matches!(self, SmtStatus::On). -/
def SmtStatus.is_enabled (s : SmtStatus) : Bool :=
  match s with
  | .On => true
  | _ => false

/-- Rust: matches!(self, SmtStatus::On | SmtStatus::Off). -/
def SmtStatus.is_controllable (s : SmtStatus) : Bool :=
  match s with
  | .On => true
  | .Off => true
  | _ => false

/-- Embedding of Rust str::trim: drop leading and trailing whitespace
characters (modelled with Char.isWhitespace, which covers the ASCII
whitespace relevant to the sysfs control file). -/
def rustTrim (s : String) : String :=
  ⟨((s.data.dropWhile Char.isWhitespace).reverse.dropWhile Char.isWhitespace).reverse⟩

/-- Embedding of impl From for SmtStatus in src/smt.rs: match on the
trimmed input against the four exact lowercase tokens, anything else is
Unknown. -/
def smtStatusFrom (s : String) : SmtStatus :=
  match rustTrim s with
  | "on" => .On
  | "off" => .Off
  | "forceoff" => .ForceOff
  | "notsupported" => .NotSupported
  | _ => .Unknown

/-! ## Privileged write protocol (src/smt.rs, set_smt_enabled) -/

/-- The SMT_CONTROL_PATH constant of src/smt.rs. -/
def smtControlPath : String := "/sys/devices/system/cpu/smt/control"

/-- Error kinds distinguished by the embedding of std::io::Error: the
dedicated PermissionDenied class versus other OS error kinds. -/
inductive IoErrorKind where
  | NotFound
  | PermissionDenied
  | Other
deriving DecidableEq, Repr

/-- An std::io::Error: a kind plus a human-readable message. -/
structure IoError where
  kind : IoErrorKind
  msg : String
deriving DecidableEq, Repr

/-- A record of one spawn of the escalation helper: program, arguments, and
the token written to its standard input (none when no write happened). -/
structure HelperCall where
  program : String
  args : List String
  stdin_fed : Option String
deriving DecidableEq, Repr

/-- Environment describing the outcomes of the external interactions that
the escalation path of set_smt_enabled performs: spawning pkexec, the
availability of the child's stdin handle (child.stdin.as_mut), the write to
stdin, and waiting for the exit status (the Bool is status.success()). -/
structure EscalationEnv where
  spawnResult : Except IoError Unit
  stdinAvailable : Bool
  stdinWriteResult : Except IoError Unit
  waitResult : Except IoError Bool

/-- The tail of set_smt_enabled after the stdin write: child.wait()?, then
exit success maps to Ok and non-zero exit to the dedicated PermissionDenied
error with the fixed message. -/
def waitOutcome (waitResult : Except IoError Bool) : Except IoError Unit :=
  match waitResult with
  | .error e => .error e
  | .ok true => .ok ()
  | .ok false => .error ⟨.PermissionDenied, "Failed to set SMT status (pkexec failed)"⟩

/-- Embedding of set_smt_enabled in src/smt.rs. Inputs: the requested
boolean, whether the direct fs::write succeeded (the code only inspects
is_ok), and the escalation environment. Output: the io::Result together
with the list of helper invocations performed. Control flow follows the
source: direct write success returns Ok with no helper call; otherwise
pkexec tee is spawned (spawn failure propagates its error via the question
mark operator), the token is written to stdin only when the handle is
obtainable (a stdin write failure propagates), and the exit status decides
the final outcome. -/
def set_smt_enabled (enabled : Bool) (directWriteOk : Bool) (env : EscalationEnv) :
    Except IoError Unit × List HelperCall :=
  let value := if enabled then "on" else "off"
  if directWriteOk then
    (.ok (), [])
  else
    match env.spawnResult with
    | .error e => (.error e, [⟨"pkexec", ["tee", smtControlPath], none⟩])
    | .ok _ =>
      if env.stdinAvailable then
        let call : HelperCall := ⟨"pkexec", ["tee", smtControlPath], some value⟩
        match env.stdinWriteResult with
        | .error e => (.error e, [call])
        | .ok _ => (waitOutcome env.waitResult, [call])
      else
        (waitOutcome env.waitResult, [⟨"pkexec", ["tee", smtControlPath], none⟩])

/-! ## Application state machine (src/app.rs) -/

/-- Opaque window identity (iced window::Id). -/
abbrev WindowId := Nat

/-- The tray event vocabulary of src/tray.rs. -/
inductive TrayEvent where
  | ShowWindow
  | Quit
deriving DecidableEq, Repr

deriving instance DecidableEq for Except

/-- The Message enum of src/app.rs. SetSmtResult carries the string-mapped
io::Result of the write task. -/
inductive Message where
  | SmtToggled (enabled : Bool)
  | SmtStatusUpdated (status : SmtStatus)
  | RefreshStatus
  | SetSmtResult (result : Except String Unit)
  | WindowClosed (id : WindowId)
  | TrayEvent (e : TrayEvent)
  | GtkTick
  | WindowOpened (id : WindowId)
deriving DecidableEq, Repr

/-- The App struct of src/app.rs: the single mutable aggregate. The spec
names these fields status, pending, last_error and window_identity. -/
structure App where
  smt_status : SmtStatus
  is_toggling : Bool
  error_message : Option String
  window_id : Option WindowId
deriving DecidableEq, Repr

/-- The follow-up effect an update step dispatches, abstracting iced Task:
none, the blocking write task (whose completion arrives as SetSmtResult),
the blocking status-read task (whose completion arrives as
SmtStatusUpdated), focusing an existing window, opening a window with a
given identity (whose confirmation arrives as WindowOpened), and process
exit. -/
inductive AppTask where
  | none
  | setSmt (enabled : Bool)
  | refreshStatus
  | gainFocus (id : WindowId)
  | openWindow (id : WindowId)
  | exitProcess
deriving DecidableEq, Repr

/-- Embedding of App::update in src/app.rs. The extra freshId argument is
the identity that window::open would mint; it is consulted only in the
ShowWindow branch when no window exists. GtkTick only pumps the foreign
event loop and leaves the state untouched. -/
def App.update (s : App) (m : Message) (freshId : WindowId) : App × AppTask :=
  match m with
  | .SmtToggled enabled =>
      ({ s with is_toggling := true, error_message := none }, .setSmt enabled)
  | .SetSmtResult r =>
      match r with
      | .ok _ => ({ s with is_toggling := false }, .refreshStatus)
      | .error e => ({ s with is_toggling := false, error_message := some e }, .none)
  | .SmtStatusUpdated status => ({ s with smt_status := status }, .none)
  | .RefreshStatus => (s, .refreshStatus)
  | .WindowClosed id =>
      (if s.window_id = some id then { s with window_id := none } else s, .none)
  | .WindowOpened id => ({ s with window_id := some id }, .refreshStatus)
  | .GtkTick => (s, .none)
  | .TrayEvent te =>
      match te with
      | .ShowWindow =>
          match s.window_id with
          | some id => (s, .gainFocus id)
          | none => ({ s with window_id := some freshId }, .openWindow freshId)
      | .Quit => (s, .exitProcess)

/-- Embedding of App::new in src/app.rs: initialStatus is the result of the
initial read_smt_status (already defaulted to Unknown on failure by the
caller), initId the identity minted by window::open. Note that window_id is
already Some initId in the returned state, while the WindowOpened
confirmation only arrives later through the returned open task. -/
def App.new (initialStatus : SmtStatus) (initId : WindowId) : App × AppTask :=
  ({ smt_status := initialStatus
     is_toggling := false
     error_message := none
     window_id := some initId }, .openWindow initId)

/-- The SMT section of App::view, abstracted to the widget kind it renders:
a toggler with its enabled position and label, or display-only text. -/
inductive SmtWidget where
  | toggle (enabled : Bool) (label : String)
  | displayText (msg : String)
deriving DecidableEq, Repr

/-- Whether the rendered widget is the interactive toggler. -/
def SmtWidget.isToggle (w : SmtWidget) : Bool :=
  match w with
  | .toggle _ _ => true
  | .displayText _ => false

/-- Whether the rendered widget is display-only text. -/
def SmtWidget.isDisplayText (w : SmtWidget) : Bool :=
  match w with
  | .toggle _ _ => false
  | .displayText _ => true

/-- Embedding of the match on self.smt_status in App::view (src/app.rs):
On and Off render a toggler whose position is is_enabled, the other three
variants render fixed display text. -/
def App.viewSmtWidget (s : App) : SmtWidget :=
  match s.smt_status with
  | .On | .Off =>
      .toggle s.smt_status.is_enabled
        ("SMT (Hyperthreading) - " ++ (if s.smt_status.is_enabled then "On" else "Off"))
  | .ForceOff => .displayText "SMT (Hyperthreading) - Disabled at boot"
  | .NotSupported => .displayText "SMT (Hyperthreading) - Not supported"
  | .Unknown => .displayText "SMT (Hyperthreading) - Unknown"

/-! ## Trace semantics for reachability -/

/-- Run a list of messages (each paired with the fresh identity available
to that step) through App.update, keeping only the state. -/
def runTrace (s : App) (msgs : List (Message × WindowId)) : App :=
  msgs.foldl (fun t p => (App.update t p.1 p.2).1) s

/-- The window identities confirmed open by WindowOpened events in a
trace. -/
def openedIds (msgs : List (Message × WindowId)) : List WindowId :=
  msgs.filterMap fun p =>
    match p.1 with
    | .WindowOpened id => some id
    | _ => none

/-- The window identities that can legitimately enter window_id along a
trace started from App.new: the initial identity, every confirmed
WindowOpened identity, and every fresh identity offered to a ShowWindow
tray event. -/
def candidateIds (initId : WindowId) (msgs : List (Message × WindowId)) : List WindowId :=
  initId :: msgs.filterMap fun p =>
    match p.1 with
    | .WindowOpened id => some id
    | .TrayEvent .ShowWindow => some p.2
    | _ => none

/-! ## Helper lemmas -/

/-- One update step can only keep window_id, set it from a WindowOpened
confirmation, or set it to the fresh identity of a ShowWindow event. -/
theorem window_id_step (s : App) (m : Message) (fid : WindowId) (id : WindowId)
    (h : (s.update m fid).1.window_id = some id) :
    s.window_id = some id ∨ m = .WindowOpened id ∨ (m = .TrayEvent .ShowWindow ∧ fid = id) := by
  cases m with
  | SmtToggled enabled => exact Or.inl h
  | SmtStatusUpdated status => exact Or.inl h
  | RefreshStatus => exact Or.inl h
  | GtkTick => exact Or.inl h
  | SetSmtResult r => cases r <;> exact Or.inl h
  | WindowClosed i =>
      by_cases hc : s.window_id = some i
      · simp [App.update, hc] at h
      · simp [App.update, hc] at h
        exact Or.inl h
  | WindowOpened i =>
      simp [App.update] at h
      exact Or.inr (Or.inl (by rw [h]))
  | TrayEvent te =>
      cases te with
      | Quit => exact Or.inl h
      | ShowWindow =>
          cases hw : s.window_id with
          | some j =>
              have hkeep : (s.update (.TrayEvent .ShowWindow) fid).1 = s := by
                simp [App.update, hw]
              rw [hkeep] at h
              exact Or.inl (hw.symm.trans h)
          | none =>
              simp [App.update, hw] at h
              exact Or.inr (Or.inr ⟨rfl, h⟩)

/-- Along any trace, window_id can only hold the initial value or an
identity introduced by a WindowOpened or ShowWindow entry of the trace. -/
theorem runTrace_window_id (msgs : List (Message × WindowId)) :
    ∀ (s : App) (id : WindowId), (runTrace s msgs).window_id = some id →
      s.window_id = some id ∨
        id ∈ msgs.filterMap (fun p =>
          match p.1 with
          | .WindowOpened i => some i
          | .TrayEvent .ShowWindow => some p.2
          | _ => none) := by
  induction msgs with
  | nil => intro s id h; exact Or.inl h
  | cons p rest ih =>
      intro s id h
      have hrest := ih (s.update p.1 p.2).1 id h
      rcases hrest with hmid | hmem
      · rcases window_id_step s p.1 p.2 id hmid with hkeep | hop | ⟨hshow, hfid⟩
        · exact Or.inl hkeep
        · refine Or.inr (List.mem_filterMap.mpr ⟨p, List.mem_cons_self p rest, ?_⟩)
          rw [hop]
        · refine Or.inr (List.mem_filterMap.mpr ⟨p, List.mem_cons_self p rest, ?_⟩)
          rw [hshow, hfid]
      · rcases List.mem_filterMap.mp hmem with ⟨q, hq, hfq⟩
        exact Or.inr (List.mem_filterMap.mpr ⟨q, List.mem_cons_of_mem p hq, hfq⟩)

/-! ## Claim theorems -/

/-- C1 counterexample: the parser is case-sensitive. The uppercase variant
of the known token, which the claim says still maps to the corresponding
variant On, in fact maps to Unknown. -/
theorem c1_counterexample :
    smtStatusFrom "ON" = SmtStatus.Unknown ∧ SmtStatus.Unknown ≠ SmtStatus.On := by
  decide

/-- C1 (amended): the parser is total over arbitrary strings and maps the
whitespace-trimmed input exactly: the four exact lowercase tokens map to
their variants and every other trimmed content, including case variations
of the known tokens, maps to Unknown. -/
theorem c1_status_mapping (s : String) :
    (smtStatusFrom s = SmtStatus.On ↔ rustTrim s = "on") ∧
    (smtStatusFrom s = SmtStatus.Off ↔ rustTrim s = "off") ∧
    (smtStatusFrom s = SmtStatus.ForceOff ↔ rustTrim s = "forceoff") ∧
    (smtStatusFrom s = SmtStatus.NotSupported ↔ rustTrim s = "notsupported") ∧
    (smtStatusFrom s = SmtStatus.Unknown ↔
      (rustTrim s ≠ "on" ∧ rustTrim s ≠ "off" ∧
        rustTrim s ≠ "forceoff" ∧ rustTrim s ≠ "notsupported")) := by
  unfold smtStatusFrom
  split <;> simp_all

/-- C2: for every boolean input, when the direct write succeeds the
function returns Ok immediately with no helper invocation; when the direct
write fails, exactly one helper invocation happens, and whenever the spawn
succeeds (its stdin handle is then obtainable, being piped) the invocation
is pkexec tee on the control path with the token, on for true and off for
false, fed on its standard input. -/
theorem c2_write_protocol (enabled : Bool) (directWriteOk : Bool) (env : EscalationEnv) :
    (directWriteOk = true →
      set_smt_enabled enabled directWriteOk env = (.ok (), [])) ∧
    (directWriteOk = false →
      (set_smt_enabled enabled directWriteOk env).2.length = 1 ∧
      (env.spawnResult = .ok () → env.stdinAvailable = true →
        (set_smt_enabled enabled directWriteOk env).2 =
          [⟨"pkexec", ["tee", smtControlPath],
            some (if enabled then "on" else "off")⟩])) := by
  obtain ⟨sp, sa, sw, wr⟩ := env
  cases directWriteOk <;> cases sp <;> cases sa <;> cases sw <;>
    simp [set_smt_enabled]

/-- C2 witness: concrete instantiations of both branches. -/
theorem c2_write_protocol_witness :
    set_smt_enabled true true ⟨.ok (), true, .ok (), .ok true⟩ = (.ok (), []) ∧
    (set_smt_enabled false false ⟨.ok (), true, .ok (), .ok true⟩).2 =
      [⟨"pkexec", ["tee", smtControlPath], some "off"⟩] :=
  ⟨(c2_write_protocol true true ⟨.ok (), true, .ok (), .ok true⟩).1 rfl,
   ((c2_write_protocol false false ⟨.ok (), true, .ok (), .ok true⟩).2 rfl).2 rfl rfl⟩

/-- C3 counterexample: a spawn failure does not produce the dedicated
PermissionDenied class; the question mark operator propagates the
underlying OS error unchanged, here a NotFound error. -/
theorem c3_counterexample :
    (set_smt_enabled true false
      ⟨.error ⟨.NotFound, "pkexec not found"⟩, true, .ok (), .ok true⟩).1 =
      .error ⟨.NotFound, "pkexec not found"⟩ ∧
    IoErrorKind.NotFound ≠ IoErrorKind.PermissionDenied :=
  ⟨rfl, by decide⟩

/-- C3 (amended): of the escalation-path failures, only the helper exiting
non-zero yields the dedicated PermissionDenied error with its
human-readable message; a spawn failure propagates the underlying I/O
error unchanged, whatever its kind; and an unobtainable stdin handle is
silently skipped rather than reported — the write is omitted and the exit
status alone decides the outcome, which can even be success. -/
theorem c3_escalation_errors (enabled : Bool) (directWriteOk : Bool) (env : EscalationEnv) :
    (directWriteOk = false → env.spawnResult = .ok () → env.stdinWriteResult = .ok () →
      env.waitResult = .ok false →
      (set_smt_enabled enabled directWriteOk env).1 =
        .error ⟨.PermissionDenied, "Failed to set SMT status (pkexec failed)"⟩) ∧
    (∀ e : IoError, directWriteOk = false → env.spawnResult = .error e →
      (set_smt_enabled enabled directWriteOk env).1 = .error e) ∧
    (directWriteOk = false → env.spawnResult = .ok () → env.stdinAvailable = false →
      env.waitResult = .ok true →
      (set_smt_enabled enabled directWriteOk env).1 = .ok ()) := by
  obtain ⟨sp, sa, sw, wr⟩ := env
  cases directWriteOk <;> cases sp <;> cases sa <;> cases sw <;> cases wr <;>
    simp_all [set_smt_enabled, waitOutcome]

/-- C3 witness: concrete instantiations of all three branches. -/
theorem c3_escalation_errors_witness :
    (set_smt_enabled true false ⟨.ok (), true, .ok (), .ok false⟩).1 =
      .error ⟨.PermissionDenied, "Failed to set SMT status (pkexec failed)"⟩ ∧
    (set_smt_enabled true false
      ⟨.error ⟨.Other, "spawn blew up"⟩, true, .ok (), .ok true⟩).1 =
      .error ⟨.Other, "spawn blew up"⟩ ∧
    (set_smt_enabled true false ⟨.ok (), false, .ok (), .ok true⟩).1 = .ok () :=
  ⟨(c3_escalation_errors true false ⟨.ok (), true, .ok (), .ok false⟩).1 rfl rfl rfl rfl,
   (c3_escalation_errors true false
      ⟨.error ⟨.Other, "spawn blew up"⟩, true, .ok (), .ok true⟩).2.1
      ⟨.Other, "spawn blew up"⟩ rfl rfl,
   (c3_escalation_errors true false ⟨.ok (), false, .ok (), .ok true⟩).2.2 rfl rfl rfl rfl⟩

/-- C4: from any state with a write in flight, a SetSmtResult completion
clears is_toggling on both outcomes; the error outcome alone records the
message in error_message and dispatches nothing, while the success outcome
leaves error_message unchanged and dispatches the status-refresh task. -/
theorem c4_set_smt_result (s : App) (r : Except String Unit) (fid : WindowId)
    (h : s.is_toggling = true) :
    (s.update (.SetSmtResult r) fid).1.is_toggling = false ∧
    (∀ e : String, r = .error e →
      (s.update (.SetSmtResult r) fid).1.error_message = some e ∧
      (s.update (.SetSmtResult r) fid).2 = .none) ∧
    (r = .ok () →
      (s.update (.SetSmtResult r) fid).1.error_message = s.error_message ∧
      (s.update (.SetSmtResult r) fid).2 = .refreshStatus) := by
  cases r <;> simp [App.update]

/-- C4 witness: concrete error and success completions. -/
theorem c4_set_smt_result_witness :
    ((⟨.On, true, some "old", some 1⟩ : App).update
        (.SetSmtResult (.error "boom")) 0).1.error_message = some "boom" ∧
    ((⟨.On, true, none, some 1⟩ : App).update
        (.SetSmtResult (.ok ())) 0).2 = .refreshStatus :=
  ⟨((c4_set_smt_result ⟨.On, true, some "old", some 1⟩ (.error "boom") 0 rfl).2.1
      "boom" rfl).1,
   ((c4_set_smt_result ⟨.On, true, none, some 1⟩ (.ok ()) 0 rfl).2.2 rfl).2⟩

/-- C5: from any prior state, a toggle request sets is_toggling, clears
error_message regardless of its prior value, leaves the other fields
unchanged, and dispatches exactly the write task carrying the requested
boolean. -/
theorem c5_toggle_request (s : App) (enabled : Bool) (fid : WindowId) :
    (s.update (.SmtToggled enabled) fid).1 =
      { s with is_toggling := true, error_message := none } ∧
    (s.update (.SmtToggled enabled) fid).2 = .setSmt enabled := by
  simp [App.update]

/-- C6: is_controllable holds exactly for On and Off, is_enabled exactly
for On, and the view renders the interactive toggler exactly for the
controllable variants and display-only text exactly for the others. -/
theorem c6_controllability (s : SmtStatus) (a : App) :
    (s.is_controllable = true ↔ (s = .On ∨ s = .Off)) ∧
    (s.is_enabled = true ↔ s = .On) ∧
    a.viewSmtWidget.isToggle = a.smt_status.is_controllable ∧
    a.viewSmtWidget.isDisplayText = !a.smt_status.is_controllable := by
  refine ⟨by cases s <;> decide, by cases s <;> decide, ?_, ?_⟩ <;>
    obtain ⟨st, _, _, _⟩ := a <;> cases st <;> rfl

/-- C7: a status-refresh completion replaces only smt_status and leaves
error_message, is_toggling and window_id untouched, dispatching nothing;
in particular a successful background refresh never clears an existing
error message. -/
theorem c7_status_refresh_frame (s : App) (st : SmtStatus) (fid : WindowId) :
    (s.update (.SmtStatusUpdated st) fid).1.smt_status = st ∧
    (s.update (.SmtStatusUpdated st) fid).1.error_message = s.error_message ∧
    (s.update (.SmtStatusUpdated st) fid).1.is_toggling = s.is_toggling ∧
    (s.update (.SmtStatusUpdated st) fid).1.window_id = s.window_id ∧
    (s.update (.SmtStatusUpdated st) fid).2 = .none := by
  simp [App.update]

/-- C8: from any prior state, a WindowOpened confirmation stores the
window identity and dispatches an immediate status-refresh task. -/
theorem c8_window_opened (s : App) (id : WindowId) (fid : WindowId) :
    (s.update (.WindowOpened id) fid).1.window_id = some id ∧
    (s.update (.WindowOpened id) fid).2 = .refreshStatus := by
  simp [App.update]

/-- C9 counterexample: window_id is Some before any WindowOpened
confirmation. The state returned by App.new already holds Some 0 while the
empty trace has confirmed no identity, and the ShowWindow handler likewise
sets Some 7 eagerly when no window exists. -/
theorem c9_counterexample :
    (App.new SmtStatus.Unknown 0).1.window_id = some 0 ∧
    openedIds ([] : List (Message × WindowId)) = [] ∧
    ((⟨SmtStatus.Unknown, false, none, none⟩ : App).update
        (.TrayEvent .ShowWindow) 7).1.window_id = some 7 := by
  decide

/-- C9 (amended): window_id is set eagerly at window-open request time, by
App.new for the initial window and by the ShowWindow handler when no
window exists, not only upon WindowOpened confirmation; in every state
reachable from App.new it holds only the initial identity, a confirmed
WindowOpened identity, or a fresh identity offered to a ShowWindow event;
and a WindowClosed event for the identity currently held resets it to
none. -/
theorem c9_window_identity (st : SmtStatus) (initId : WindowId)
    (msgs : List (Message × WindowId)) (id : WindowId)
    (h : (runTrace (App.new st initId).1 msgs).window_id = some id) :
    id ∈ candidateIds initId msgs ∧
    ∀ s : App, s.window_id = some id →
      (s.update (.WindowClosed id) 0).1.window_id = none := by
  constructor
  · rcases runTrace_window_id msgs (App.new st initId).1 id h with hinit | hmem
    · have : initId = id := by
        simpa [App.new] using hinit
      rw [this]
      exact List.mem_cons_self id _
    · exact List.mem_cons_of_mem initId hmem
  · intro s hs
    simp [App.update, hs]

/-- C9 witness: a trace consisting of one WindowOpened confirmation. -/
theorem c9_window_identity_witness :
    3 ∈ candidateIds 0 [(Message.WindowOpened 3, 0)] ∧
    ((⟨SmtStatus.Unknown, false, none, some 3⟩ : App).update
        (.WindowClosed 3) 0).1.window_id = none :=
  ⟨(c9_window_identity .Unknown 0 [(Message.WindowOpened 3, 0)] 3 (by decide)).1,
   (c9_window_identity .Unknown 0 [(Message.WindowOpened 3, 0)] 3 (by decide)).2
     ⟨SmtStatus.Unknown, false, none, some 3⟩ rfl⟩

/-- C10: a WindowClosed notification for an identity other than the one
currently held leaves the entire state unchanged and dispatches nothing. -/
theorem c10_stale_close (s : App) (id : WindowId) (fid : WindowId)
    (h : s.window_id ≠ some id) :
    s.update (.WindowClosed id) fid = (s, .none) := by
  simp [App.update, h]

/-- C10 witness: a close notification for window 2 while window 1 is
held. -/
theorem c10_stale_close_witness :
    (⟨SmtStatus.On, false, none, some 1⟩ : App).update (.WindowClosed 2) 0 =
      (⟨SmtStatus.On, false, none, some 1⟩, .none) :=
  c10_stale_close ⟨SmtStatus.On, false, none, some 1⟩ 2 0 (by decide)
